import Mathlib

/-!
# Verification of the FEAST_PtE `SiteSurvey` detection method

Shallow embedding of `src/feast/DetectionModules/site_survey.py` (class
`SiteSurvey`), together with the pieces of its abstract base class
`DetectionMethod` and the `Time` / `Emission` / `GasField` collaborators
that the claims need.  The base class and the collaborators are not part
of the sources given under `src/`, so the definitions that come from them
are modelled from the spec and carry a `Modelled from the spec:` note.

Python floats are modelled as exact rationals; Python `int()` truncation,
`np.mod(x, 1)` (fractional part), and the division-by-zero behaviour of
the constructor arithmetic are made explicit.  The NumPy uniform random
draws of `detect_prob_curve` are modelled by an explicit stream of draws
(`rng : List ℚ`) threaded through `detect`; the number of draws consumed
is visible as the difference between the incoming and outgoing stream.
-/

namespace FEAST

/-- The simulation clock: `delta_t` (days per step, possibly fractional),
the current absolute time in days, and the integer step index. -/
structure Time where
  delta_t : ℚ
  current_time : ℚ
  time_index : ℕ
deriving Repr

/-- Modelled from the spec: the columnar Emission store
(`feast/GeneralClassesFunctions/emission_class_functions.py`, not under
`src/`).  `n_em` is the logical count of real entries; array cells at
index `≥ n_em` are uninitialized scratch.  An unresolved emission has end
time infinity, modelled as `none`. -/
structure Emissions where
  n_em : ℕ
  flux : List ℚ
  site_index : List ℕ
  comp_index : List ℕ
  end_time : List (Option ℚ)
  repair_cost : List ℚ
  detected : List Bool
deriving Repr

/-- Dynamic attribute lookup `emissions.__getattribute__(v)` restricted to
the numeric per-emission columns a detection variable may name, resolved
through an explicit name table as the spec's design notes prescribe. -/
def Emissions.getAttr (em : Emissions) (v : String) : List ℚ :=
  if v = "flux" then em.flux
  else if v = "repair_cost" then em.repair_cost
  else []

/-- Modelled from the spec: emission `i` is currently active at time `t`
iff its end time (infinity while unresolved, modelled as `none`) is still
in the future. -/
def Emissions.activeAt (em : Emissions) (t : Time) (i : ℕ) : Bool :=
  match em.end_time.getD i none with
  | none => true
  | some e => decide (t.current_time < e)

/-- Modelled from the spec: the gas field's meteorological time series,
keyed by variable name (`gas_field.met`). -/
structure GasField where
  met : List (String × (Time → ℚ))

/-- Membership test `v in gas_field.met`. -/
def GasField.metContains (gf : GasField) (v : String) : Bool :=
  (gf.met.lookup v).isSome

/-- Modelled from the spec: `gas_field.get_met(time, v, ...)` reads the
value of meteorological variable `v` from the field's time series at the
given time (the interpolation mode and operating-hours arguments select
how the underlying series is sampled; the sampled value is the function
stored in `met`). -/
def GasField.get_met (gf : GasField) (t : Time) (v : String) : ℚ :=
  match gf.met.lookup v with
  | some f => f t
  | none => 0

/-- The `SiteSurvey` object state after construction
(`site_survey.py`, `__init__`).  `empirical_interpolator` and
`detection_variables` are inherited from the abstract `DetectionMethod`
base class (not under `src/`) and are kept abstract: the interpolator is
an arbitrary function of the probability table and the query variables,
and `detection_variables` maps each detection-variable name to its
interpolation mode tag. -/
structure SiteSurvey where
  sites_per_day : ℤ
  site_cost : ℚ
  ophrs_begin : ℚ
  ophrs_end : ℚ
  survey_interval : Option ℚ
  site_queue : List ℕ
  sites_per_timestep : ℤ
  detection_variables : List (String × String)
  detection_probability_points : List (List ℚ)
  detection_probabilities : List ℚ
  empirical_interpolator : List (List ℚ) → List ℚ → List ℚ → ℚ

/-- Python `int(q)`: truncation toward zero. -/
def pyInt (q : ℚ) : ℤ :=
  if q < 0 then ⌈q⌉ else ⌊q⌋

/-- `np.mod(q, 1)`: the fractional part (NumPy `mod` floors). -/
def npMod1 (q : ℚ) : ℚ :=
  q - ⌊q⌋

/-- The constructor arithmetic of `site_survey.py` lines 60-62:

    work_time = (ophrs['end'] - ophrs['begin']) / 24
    sites_per_timestep = int(sites_per_day * (int(delta_t) +
                             np.min([1, np.mod(delta_t, 1) / work_time])))

computed over exact rationals.  When `work_time = 0` the Python float
division produces `nan` (if the fractional part of `delta_t` is zero,
making `int(...)` raise `ValueError`, modelled as `none`) or `+inf`
(if it is positive, so that `np.min([1, inf]) = 1`). -/
def sitesPerTimestepCalc (sites_per_day : ℤ) (ophrs_begin ophrs_end delta_t : ℚ) :
    Option ℤ :=
  let work_time : ℚ := (ophrs_end - ophrs_begin) / 24
  let frac := npMod1 delta_t
  if work_time = 0 then
    if frac = 0 then none
    else some (pyInt ((sites_per_day : ℚ) * ((pyInt delta_t : ℚ) + 1)))
  else
    some (pyInt ((sites_per_day : ℚ) * ((pyInt delta_t : ℚ) + min 1 (frac / work_time))))

/-- `SiteSurvey.__init__` (`site_survey.py` lines 20-64): stores the
process and detection parameters and computes `sites_per_timestep` once
from `sites_per_day`, the operating-hours window and `time.delta_t`.
Returns `none` when the constructor arithmetic raises (`int(nan)`). -/
def SiteSurvey.init (time : Time) (sites_per_day : ℤ) (site_cost : ℚ)
    (detection_probability_points : List (List ℚ)) (detection_probabilities : List ℚ)
    (interpolator : List (List ℚ) → List ℚ → List ℚ → ℚ)
    (ophrs_begin ophrs_end : ℚ) (site_queue : List ℕ) (survey_interval : Option ℚ)
    (detection_variables : List (String × String)) : Option SiteSurvey :=
  (sitesPerTimestepCalc sites_per_day ophrs_begin ophrs_end time.delta_t).map
    (fun spt =>
      { sites_per_day := sites_per_day
        site_cost := site_cost
        ophrs_begin := ophrs_begin
        ophrs_end := ophrs_end
        survey_interval := survey_interval
        site_queue := site_queue
        sites_per_timestep := spt
        detection_variables := detection_variables
        detection_probability_points := detection_probability_points
        detection_probabilities := detection_probabilities
        empirical_interpolator := interpolator })

/-- Modelled from the spec: `DetectionMethod.check_time` (abstract base
class, not under `src/`) is true iff the method is within its
operating-hours window for the current time-of-day — interpreted as
fractional-day clock bounds, so a window with `begin == end` never
operates — and iff the current step satisfies any survey-interval gating
(a once-every-N-days cadence: the step containing each N-day mark). -/
def SiteSurvey.check_time (s : SiteSurvey) (t : Time) : Bool :=
  let tod : ℚ := 24 * (t.current_time - ⌊t.current_time⌋)
  let inWindow := decide (s.ophrs_begin ≤ tod) && decide (tod < s.ophrs_end)
  let intervalOk :=
    match s.survey_interval with
    | none => true
    | some n => decide (t.current_time - n * ⌊t.current_time / n⌋ < t.delta_t)
  inWindow && intervalOk

/-- Modelled from the spec: `DetectionMethod.choose_sites` (abstract base
class, not under `src/`) selects up to `n` sites eligible under the
operating envelope, consuming from the front of the method's `site_queue`;
with the default empty operating envelope every site is eligible, so it
pops the first `n` queued sites. -/
def SiteSurvey.choose_sites (s : SiteSurvey) (n : ℕ) : List ℕ × SiteSurvey :=
  (s.site_queue.take n, { s with site_queue := s.site_queue.drop n })

/-- Modelled from the spec: `DetectionMethod.extend_site_queue` (abstract
base class, not under `src/`) appends the given site indices, in order,
to the back of the (shared, mutable) `site_queue` list object. -/
def SiteSurvey.extend_site_queue (s : SiteSurvey) (site_inds : List ℕ) : SiteSurvey :=
  { s with site_queue := s.site_queue ++ site_inds }

/-- `find_cost[i] += x` on the cost-accumulator array. -/
def addAt (l : List ℚ) (i : ℕ) (x : ℚ) : List ℚ :=
  l.set i (l.getD i 0 + x)

/-- The per-site sum of `detect_prob_curve` (`site_survey.py` lines 88
and 94):

    cond = np.where(emissions.site_index[:emissions.n_em] == site_ind)[0]
    vals[ind] = np.sum(emissions.__getattribute__(v)[cond])

the sum of column `v` over entry indices below `n_em` whose `site_index`
equals `site`. -/
def sumAttr (em : Emissions) (v : String) (site : ℕ) : ℚ :=
  (((List.range em.n_em).filter
      (fun i => decide (em.site_index.get? i = some site))).map
    (fun i => (em.getAttr v).getD i 0)).sum

/-- The query-variable vector `vals` assembled by `detect_prob_curve`
(`site_survey.py` lines 86-95) for one site: each detection variable is
read from the meteorological series when its name is meteorological,
otherwise summed over the site's emission entries. -/
def SiteSurvey.siteVals (s : SiteSurvey) (t : Time) (gf : GasField) (em : Emissions)
    (site : ℕ) : List ℚ :=
  s.detection_variables.map (fun vim =>
    if gf.metContains vim.1 then gf.get_met t vim.1
    else sumAttr em vim.1 site)

/-- `SiteSurvey.detect_prob_curve` (`site_survey.py` lines 66-101): with
an empty `site_inds` it returns immediately without sampling; otherwise
it computes per-site detection probabilities via the empirical
interpolator, draws one uniform score per site
(`scores = np.random.uniform(0, 1, n_scores)`, modelled as consuming
`site_inds.length` values from the head of `rng`), and keeps exactly the
sites whose score is `≤` their probability
(`np.array(site_inds)[scores <= probs]`).  Returns the detected indices
and the unconsumed remainder of the draw stream. -/
def SiteSurvey.detect_prob_curve (s : SiteSurvey) (t : Time) (gf : GasField)
    (site_inds : List ℕ) (em : Emissions) (rng : List ℚ) : List ℕ × List ℚ :=
  if site_inds.length = 0 then (site_inds, rng)
  else
    let probs := site_inds.map (fun si =>
      s.empirical_interpolator s.detection_probability_points s.detection_probabilities
        (s.siteVals t gf em si))
    let scores := rng.take site_inds.length
    ((site_inds.zip (scores.zip probs)).filterMap
        (fun p => if p.2.1 ≤ p.2.2 then some p.1 else none),
      rng.drop site_inds.length)

/-- `SiteSurvey.sites_surveyed` (`site_survey.py` lines 103-117):

    n_sites = np.min([self.sites_per_timestep, len(self.site_queue)])
    site_inds = self.choose_sites(gas_field, time, n_sites)
    find_cost[time.time_index] += len(site_inds) * self.site_cost

returns the surveyed site indices, the method with its queue consumed,
and the updated cost accumulator. -/
def SiteSurvey.sites_surveyed (s : SiteSurvey) (t : Time) (find_cost : List ℚ) :
    List ℕ × SiteSurvey × List ℚ :=
  let n_sites := min s.sites_per_timestep (s.site_queue.length : ℤ)
  let r := s.choose_sites n_sites.toNat
  (r.1, r.2, addAt find_cost t.time_index (r.1.length * s.site_cost))

/-- The observable outcome of one `detect` call: the method state (its
queue), the cost accumulator, the argument of the single
`dispatch_object.action` call when one is made (`none` when `detect`
dispatches nothing), the emission store as `detect` leaves it, and the
unconsumed remainder of the uniform-draw stream. -/
structure DetectResult where
  method : SiteSurvey
  find_cost : List ℚ
  dispatched : Option (List ℕ)
  emissions : Emissions
  rng : List ℚ

/-- `SiteSurvey.detect` (`site_survey.py` lines 119-137): when
`check_time` holds, survey sites from the queue (charging their cost),
and if any site was visited, run the probability-of-detection model and
forward the flagged indices to `dispatch_object.action(detect, None)`;
otherwise do nothing. -/
def SiteSurvey.detect (s : SiteSurvey) (t : Time) (gf : GasField) (em : Emissions)
    (find_cost : List ℚ) (rng : List ℚ) : DetectResult :=
  if s.check_time t then
    let r := s.sites_surveyed t find_cost
    if 0 < r.1.length then
      let d := r.2.1.detect_prob_curve t gf r.1 em rng
      ⟨r.2.1, r.2.2, some d.1, em, d.2⟩
    else
      ⟨r.2.1, r.2.2, none, em, rng⟩
  else
    ⟨s, find_cost, none, em, rng⟩

/-- `SiteSurvey.action` (`site_survey.py` lines 139-147): adds the given
sites to the queue (the `emit_inds` argument is not used). -/
def SiteSurvey.action (s : SiteSurvey) (site_inds : List ℕ)
    (_emit_inds : Option (List ℕ)) : SiteSurvey :=
  s.extend_site_queue site_inds

/-! ## Spec-side restatement of the detection step

The following definitions follow the spec's words (§4.5 step 3), for a
refinement comparison with `detect_prob_curve` above: "sum the requested
emission variable(s) across all *currently active* emissions whose
`site_index` matches, substitute meteorological variables directly from
the field's time series, look up the probability of detection via the
empirical interpolator, then draw one uniform random number per site and
flag the site as detected iff the draw is ≤ the looked-up probability." -/

/-- Spec wording: the sum of emission column `v` over all currently
active emissions (entries below `n_em`) whose `site_index` matches. -/
def activeSumAttr (em : Emissions) (t : Time) (v : String) (site : ℕ) : ℚ :=
  (((List.range em.n_em).filter
      (fun i => decide (em.site_index.get? i = some site) && em.activeAt t i)).map
    (fun i => (em.getAttr v).getD i 0)).sum

/-- Spec wording: the query-variable vector for one site — each
meteorological variable read from the field's time series, each emission
variable summed over the site's currently active emissions. -/
def specSiteVals (s : SiteSurvey) (t : Time) (gf : GasField) (em : Emissions)
    (site : ℕ) : List ℚ :=
  s.detection_variables.map (fun vim =>
    if gf.metContains vim.1 then gf.get_met t vim.1
    else activeSumAttr em t vim.1 site)

/-- Spec wording: a visited site is flagged as detected iff its one
uniform draw is ≤ the probability the empirical interpolator assigns to
its query-variable vector. -/
def specDetected (s : SiteSurvey) (t : Time) (gf : GasField) (em : Emissions)
    (site_inds : List ℕ) (rng : List ℚ) : List ℕ :=
  (site_inds.zip (rng.take site_inds.length)).filterMap (fun p =>
    if p.2 ≤ s.empirical_interpolator s.detection_probability_points
        s.detection_probabilities (specSiteVals s t gf em p.1)
      then some p.1 else none)

/-! ## Python reference semantics of the default `site_queue` argument

`__init__` declares `site_queue=[]` (`site_survey.py` line 21).  In
Python the default value is evaluated exactly once, when the function is
defined, and every call that omits the argument binds `self.site_queue`
to that same list object; `extend_site_queue` then appends to the list in
place.  To reason about this aliasing the queue lists live on an explicit
heap of cells and a `SiteSurvey` instance holds a cell reference. -/

/-- Heap of Python list objects used as site queues. -/
structure PyHeap where
  cells : List (List ℕ)
deriving Repr

/-- A constructed `SiteSurvey` instance, reduced to the reference its
`self.site_queue` attribute holds. -/
structure SiteSurveyRef where
  queue_ref : ℕ
deriving Repr

/-- The single `[]` object created when `__init__`'s default argument is
evaluated at function-definition time: cell `0` of the initial heap. -/
def defaultQueueCell : ℕ := 0

/-- The heap right after the class body is executed: it holds only the
default-argument list object, which is empty. -/
def initialHeap : PyHeap := ⟨[[]]⟩

/-- Constructing a `SiteSurvey` without passing `site_queue` binds
`self.site_queue` to the default-argument object (no copy is made). -/
def mkDefaultSiteSurvey : SiteSurveyRef := ⟨defaultQueueCell⟩

/-- Read an instance's `site_queue` contents. -/
def PyHeap.readQueue (h : PyHeap) (o : SiteSurveyRef) : List ℕ :=
  h.cells.getD o.queue_ref []

/-- `o.action(inds, None)` under reference semantics:
`extend_site_queue` appends to the referenced list object in place. -/
def PyHeap.actionOn (h : PyHeap) (o : SiteSurveyRef) (inds : List ℕ) : PyHeap :=
  ⟨h.cells.set o.queue_ref (h.cells.getD o.queue_ref [] ++ inds)⟩

/-! ## Concrete witness fixtures -/

/-- A concrete empirical interpolator for witnesses: returns the first
query variable (so any positive flux sum gives a positive probability). -/
def testInterp : List (List ℚ) → List ℚ → List ℚ → ℚ := fun _ _ vals => vals.headD 0

def testSurvey : SiteSurvey :=
  { sites_per_day := 50
    site_cost := 100
    ophrs_begin := 8
    ophrs_end := 18
    survey_interval := none
    site_queue := [3, 1, 4, 1, 5]
    sites_per_timestep := 2
    detection_variables := [("flux", "mean")]
    detection_probability_points := []
    detection_probabilities := []
    empirical_interpolator := testInterp }

def testSurveyNoQueue : SiteSurvey :=
  { testSurvey with site_queue := [] }

def testSurveyClosed : SiteSurvey :=
  { testSurvey with ophrs_begin := 8, ophrs_end := 8 }

def testTime : Time := ⟨1, 10, 10⟩

def testGasField : GasField := ⟨[]⟩

def testEmissions : Emissions :=
  { n_em := 2
    flux := [1, 2, 99]
    site_index := [3, 1, 77]
    comp_index := [0, 0, 0]
    end_time := [none, none, some 0]
    repair_cost := [2, 2, 2]
    detected := [false, false, false] }

/-- Same first `n_em = 2` entries as `testEmissions`, different scratch
beyond. -/
def testEmissionsAlt : Emissions :=
  { n_em := 2
    flux := [1, 2, 55]
    site_index := [3, 1, 88]
    comp_index := [0, 0, 1]
    end_time := [none, none, none]
    repair_cost := [2, 2, 9]
    detected := [false, false, true] }

def testCost : List ℚ := List.replicate 11 0

/-! ## Helper lemmas -/

theorem set_getD_self (l : List ℚ) (i : ℕ) : l.set i (l.getD i 0) = l := by
  induction l generalizing i with
  | nil => simp
  | cons a l ih =>
    cases i with
    | zero => simp
    | succ n => simpa [List.getD_eq_getElem?_getD] using ih n

theorem addAt_zero (l : List ℚ) (i : ℕ) : addAt l i 0 = l := by
  show l.set i (l.getD i 0 + 0) = l
  rw [add_zero, set_getD_self]

theorem addAt_getD (l : List ℚ) (i : ℕ) (x : ℚ) (h : i < l.length) :
    (addAt l i x).getD i 0 = l.getD i 0 + x := by
  simp [addAt, List.getD_eq_getElem?_getD, List.getElem?_set_eq_of_lt _ h]

theorem addAt_get?_ne (l : List ℚ) (i j : ℕ) (x : ℚ) (h : i ≠ j) :
    (addAt l i x).get? j = l.get? j := by
  simp [addAt, List.getElem?_set_ne h]

theorem take_min_length (l : List ℕ) (n : ℕ) : l.take (min n l.length) = l.take n := by
  rcases le_or_lt n l.length with h | h
  · rw [min_eq_left h]
  · rw [min_eq_right h.le, List.take_length, List.take_of_length_le h.le]

/-! ## The claims -/

/-- **C2.** In every step in which `SiteSurvey` operates, `sites_surveyed`
selects up to `sites_per_timestep` sites from the front of `site_queue`
(fewer if the queue is shorter: the surveyed count is
`min(sites_per_timestep, len(site_queue))`), and adds exactly
(number of sites surveyed) × `site_cost` to the cost-accumulator entry at
the current time index, for every surveyed count, leaving every other
entry untouched; cost is charged per visited site regardless of the
detection outcome. -/
theorem sites_surveyed_front_and_cost (s : SiteSurvey) (t : Time) (fc : List ℚ)
    (hi : t.time_index < fc.length) :
    (s.sites_surveyed t fc).1 = s.site_queue.take s.sites_per_timestep.toNat ∧
    (s.sites_surveyed t fc).1.length
      = min s.sites_per_timestep.toNat s.site_queue.length ∧
    (s.sites_surveyed t fc).2.2.getD t.time_index 0
      = fc.getD t.time_index 0 + (s.sites_surveyed t fc).1.length * s.site_cost ∧
    (∀ j, j ≠ t.time_index → (s.sites_surveyed t fc).2.2.get? j = fc.get? j) ∧
    (s.sites_surveyed t fc).2.1.site_queue
      = s.site_queue.drop s.sites_per_timestep.toNat := by
  have hmin : (min s.sites_per_timestep (s.site_queue.length : ℤ)).toNat
      = min s.sites_per_timestep.toNat s.site_queue.length := by omega
  unfold SiteSurvey.sites_surveyed SiteSurvey.choose_sites
  simp only [hmin]
  refine ⟨take_min_length _ _, ?_, ?_, ?_, ?_⟩
  · rw [take_min_length, List.length_take]
  · rw [addAt_getD _ _ _ hi]
  · intro j hj
    exact addAt_get?_ne _ _ _ _ (fun he => hj he.symm)
  · rcases le_or_lt s.sites_per_timestep.toNat s.site_queue.length with h | h
    · rw [min_eq_left h]
    · rw [min_eq_right h.le, List.drop_length, List.drop_eq_nil_of_le h.le]

/-- **C3.** For every time at which `check_time` returns false,
`SiteSurvey.detect` is a no-op: the method state (in particular
`site_queue`), the cost accumulator, and the uniform-draw stream are
unchanged, and `dispatch_object.action` is never invoked. -/
theorem detect_noop_of_check_time_false (s : SiteSurvey) (t : Time) (gf : GasField)
    (em : Emissions) (fc rng : List ℚ) (h : s.check_time t = false) :
    s.detect t gf em fc rng = ⟨s, fc, none, em, rng⟩ := by
  simp [SiteSurvey.detect, h]

/-- **C7.** `SiteSurvey.action` appends the given site indices in order
to the back of `site_queue`, leaving previously queued entries and their
order unchanged; `action([5,7])` then `action([9])` appends `5, 7, 9`
front-to-back, and `action([])` never changes the queue. -/
theorem action_appends_fifo (s : SiteSurvey) (e : Option (List ℕ)) :
    (∀ inds, (s.action inds e).site_queue = s.site_queue ++ inds) ∧
    ((s.action [5, 7] e).action [9] e).site_queue = s.site_queue ++ [5, 7, 9] ∧
    (s.action [] e).site_queue = s.site_queue := by
  refine ⟨fun _ => rfl, ?_, ?_⟩ <;>
    simp [SiteSurvey.action, SiteSurvey.extend_site_queue]

/-- **C10 (code evaluation).** Two `SiteSurvey` instances constructed
without an explicit `site_queue` argument share the single
default-argument list object, so `action` on one is visible through the
other: after the first instance's `action([5])`, the second instance's
queue reads `[5]`, not `[]`. -/
theorem default_site_queue_shared :
    initialHeap.readQueue mkDefaultSiteSurvey = [] ∧
    ((initialHeap.actionOn mkDefaultSiteSurvey [5]).readQueue
        mkDefaultSiteSurvey = [5] ∧
      (initialHeap.actionOn mkDefaultSiteSurvey [5]).readQueue
        mkDefaultSiteSurvey ≠ []) := by
  decide

/-- **C4.** With an empty candidate set the step is an explicit no-op:
`detect_prob_curve` called with empty `site_inds` returns immediately
without consuming any random draw, and (with an empty `site_queue`, hence
zero surveyed sites) `detect` charges zero cost, changes nothing, and
never calls `dispatch_object.action`. -/
theorem empty_candidates_noop (s : SiteSurvey) (t : Time) (gf : GasField)
    (em : Emissions) (fc rng : List ℚ) (h : s.site_queue = []) :
    s.detect_prob_curve t gf [] em rng = ([], rng) ∧
    s.detect t gf em fc rng = ⟨s, fc, none, em, rng⟩ := by
  constructor
  · simp [SiteSurvey.detect_prob_curve]
  · unfold SiteSurvey.detect SiteSurvey.sites_surveyed SiteSurvey.choose_sites
    by_cases hct : s.check_time t
    · rw [h]
      simp only [hct, if_true, List.take_nil, List.drop_nil, List.length_nil,
        Nat.cast_zero, zero_mul, addAt_zero, lt_self_iff_false, if_false]
      rw [← h]
    · simp [hct]

/-- **C5.** `detect` forwards the flagged site indices verbatim — exactly
the list `detect_prob_curve` produced, in its order — to the single
`dispatch_object.action` call (made iff the method operates and at least
one site was surveyed), and never itself mutates the Emission store. -/
theorem detect_forwards_verbatim (s : SiteSurvey) (t : Time) (gf : GasField)
    (em : Emissions) (fc rng : List ℚ) :
    (s.detect t gf em fc rng).emissions = em ∧
    (s.detect t gf em fc rng).dispatched =
      (if s.check_time t = true ∧ (s.sites_surveyed t fc).1 ≠ [] then
        some ((s.sites_surveyed t fc).2.1.detect_prob_curve t gf
          (s.sites_surveyed t fc).1 em rng).1
      else none) := by
  unfold SiteSurvey.detect
  by_cases hct : s.check_time t
  · by_cases hne : (s.sites_surveyed t fc).1 = []
    · simp [hct, hne]
    · have hpos : 0 < (s.sites_surveyed t fc).1.length := List.length_pos.mpr hne
      simp [hct, hne, hpos]
  · simp [hct]

/-- **C9.** A `SiteSurvey` whose operating-hours window has
`begin == end` never operates: `check_time` is false at every time, so
every `detect` call surveys no sites, charges no cost, and dispatches
nothing; and such an instance is constructible (here with
`delta_t = 1/2`, so the constructor arithmetic does not raise). -/
theorem begin_eq_end_never_operates (s : SiteSurvey) (t : Time) (gf : GasField)
    (em : Emissions) (fc rng : List ℚ) (h : s.ophrs_begin = s.ophrs_end) :
    s.check_time t = false ∧
    s.detect t gf em fc rng = ⟨s, fc, none, em, rng⟩ ∧
    (SiteSurvey.init ⟨1/2, 0, 0⟩ 50 1 [] [] (fun _ _ _ => 1) 8 8 [] none
      [("flux", "mean")]).isSome = true := by
  have hct : s.check_time t = false := by
    have hw : (decide (s.ophrs_begin ≤ 24 * (t.current_time - ⌊t.current_time⌋)) &&
        decide (24 * (t.current_time - ⌊t.current_time⌋) < s.ophrs_end)) = false := by
      rw [h, Bool.and_eq_false_iff]
      rcases le_or_lt s.ophrs_end (24 * (t.current_time - ⌊t.current_time⌋)) with hle | hlt
      · right
        rw [decide_eq_false_iff_not]
        exact not_lt.mpr hle
      · left
        rw [decide_eq_false_iff_not]
        exact not_le.mpr hlt
    simp only [SiteSurvey.check_time]
    rw [hw, Bool.false_and]
  refine ⟨hct, by simp [SiteSurvey.detect, hct], ?_⟩
  unfold SiteSurvey.init sitesPerTimestepCalc npMod1 pyInt
  norm_num

theorem filterMap_zip_map (f : ℕ → ℚ) (l : List ℕ) (sc : List ℚ) :
    ((l.zip (sc.zip (l.map f))).filterMap
        (fun p => if p.2.1 ≤ p.2.2 then some p.1 else none))
      = (l.zip sc).filterMap (fun p => if p.2 ≤ f p.1 then some p.1 else none) := by
  induction l generalizing sc with
  | nil => simp
  | cons a l ih =>
    cases sc with
    | nil => simp
    | cons b sc => simp [List.zip_cons_cons, List.filterMap_cons, ih]

theorem sumAttr_eq_activeSum (em : Emissions) (t : Time) (v : String) (site : ℕ)
    (hact : ∀ i < em.n_em, em.activeAt t i = true) :
    sumAttr em v site = activeSumAttr em t v site := by
  unfold sumAttr activeSumAttr
  have hf : (List.range em.n_em).filter
        (fun i => decide (em.site_index.get? i = some site))
      = (List.range em.n_em).filter
        (fun i => decide (em.site_index.get? i = some site) && em.activeAt t i) := by
    apply List.filter_congr
    intro i hi
    rw [List.mem_range] at hi
    rw [hact i hi, Bool.and_true]
  rw [hf]

theorem siteVals_eq_specSiteVals (s : SiteSurvey) (t : Time) (gf : GasField)
    (em : Emissions) (site : ℕ)
    (hact : ∀ i < em.n_em, em.activeAt t i = true) :
    s.siteVals t gf em site = specSiteVals s t gf em site := by
  unfold SiteSurvey.siteVals specSiteVals
  apply List.map_congr_left
  intro vim _
  by_cases hm : gf.metContains vim.1
  · simp [hm]
  · simp [hm, sumAttr_eq_activeSum em t vim.1 site hact]

/-- **C1.** For every visited site, `detect_prob_curve` feeds the
probability interpolator the sum of each requested emission variable over
all currently active emissions whose `site_index` matches the site
(meteorological variables are read from the gas field's time series
instead), looks up the detection probability via the empirical
interpolator, and flags the site as detected iff its one uniform draw is
`≤` the looked-up probability: the output equals the spec-side
`specDetected`, and exactly one draw per visited site is consumed.
The hypothesis — every entry below `n_em` of the store handed to the
method is currently active — is the state in which the (excluded)
simulation loop invokes `detect`. -/
theorem detect_prob_curve_matches_spec (s : SiteSurvey) (t : Time) (gf : GasField)
    (em : Emissions) (site_inds : List ℕ) (rng : List ℚ)
    (hact : ∀ i < em.n_em, em.activeAt t i = true) :
    s.detect_prob_curve t gf site_inds em rng
      = (specDetected s t gf em site_inds rng, rng.drop site_inds.length) := by
  unfold SiteSurvey.detect_prob_curve specDetected
  by_cases h : site_inds.length = 0
  · rw [List.length_eq_zero] at h
    simp [h]
  · simp only [h, if_false]
    refine Prod.ext ?_ rfl
    have hv : (fun si => s.empirical_interpolator s.detection_probability_points
          s.detection_probabilities (s.siteVals t gf em si))
        = (fun si => s.empirical_interpolator s.detection_probability_points
          s.detection_probabilities (specSiteVals s t gf em si)) := by
      funext si
      rw [siteVals_eq_specSiteVals s t gf em si hact]
    rw [hv]
    exact filterMap_zip_map _ site_inds (rng.take site_inds.length)

/-- **C6.** `sites_per_timestep` is computed once at construction as a
deterministic function of `sites_per_day`, the operating-hours window and
`delta_t` alone (the constructor stores exactly
`sitesPerTimestepCalc sites_per_day ophrs_begin ophrs_end delta_t`,
whatever the other arguments are); in particular `sites_per_day = 50`,
`ophrs = {begin: 0, end: 24}`, `delta_t = 1` gives `50`. -/
theorem sites_per_timestep_deterministic :
    (∀ (time : Time) (spd : ℤ) (c : ℚ) (pts : List (List ℚ)) (prs : List ℚ)
        (itp : List (List ℚ) → List ℚ → List ℚ → ℚ) (b e : ℚ) (q : List ℕ)
        (si : Option ℚ) (dv : List (String × String)),
        (SiteSurvey.init time spd c pts prs itp b e q si dv).map
            (fun m => m.sites_per_timestep)
          = sitesPerTimestepCalc spd b e time.delta_t) ∧
    sitesPerTimestepCalc 50 0 24 1 = some 50 := by
  constructor
  · intro time spd c pts prs itp b e q si dv
    unfold SiteSurvey.init
    cases sitesPerTimestepCalc spd b e time.delta_t <;> simp
  · unfold sitesPerTimestepCalc npMod1 pyInt
    norm_num

theorem sumAttr_congr (em1 em2 : Emissions) (v : String) (site : ℕ)
    (hn : em1.n_em = em2.n_em)
    (hsite : ∀ i < em1.n_em, em1.site_index.get? i = em2.site_index.get? i)
    (hflux : ∀ i < em1.n_em, em1.flux.getD i 0 = em2.flux.getD i 0)
    (hrc : ∀ i < em1.n_em, em1.repair_cost.getD i 0 = em2.repair_cost.getD i 0) :
    sumAttr em1 v site = sumAttr em2 v site := by
  unfold sumAttr
  rw [← hn]
  have hfilter : (List.range em1.n_em).filter
        (fun i => decide (em1.site_index.get? i = some site))
      = (List.range em1.n_em).filter
        (fun i => decide (em2.site_index.get? i = some site)) := by
    apply List.filter_congr
    intro i hi
    rw [List.mem_range] at hi
    rw [hsite i hi]
  rw [hfilter]
  have hmap : ∀ i ∈ (List.range em1.n_em).filter
        (fun i => decide (em2.site_index.get? i = some site)),
      (em1.getAttr v).getD i 0 = (em2.getAttr v).getD i 0 := by
    intro i hi
    have hlt : i < em1.n_em := List.mem_range.mp (List.mem_of_mem_filter hi)
    unfold Emissions.getAttr
    split_ifs
    · exact hflux i hlt
    · exact hrc i hlt
    · rfl
  rw [List.map_congr_left hmap]

/-- **C8.** `SiteSurvey.detect` (via `detect_prob_curve`) reads only
Emission-store entries at indices strictly below `n_em`: two stores with
the same `n_em` agreeing on every column at indices below `n_em` — and
possibly differing arbitrarily beyond — produce identical detection
results and identical dispatch. -/
theorem detect_reads_below_n_em (s : SiteSurvey) (t : Time) (gf : GasField)
    (fc rng : List ℚ) (site_inds : List ℕ) (em1 em2 : Emissions)
    (hn : em1.n_em = em2.n_em)
    (hsite : ∀ i < em1.n_em, em1.site_index.get? i = em2.site_index.get? i)
    (hflux : ∀ i < em1.n_em, em1.flux.getD i 0 = em2.flux.getD i 0)
    (hrc : ∀ i < em1.n_em, em1.repair_cost.getD i 0 = em2.repair_cost.getD i 0) :
    s.detect_prob_curve t gf site_inds em1 rng
      = s.detect_prob_curve t gf site_inds em2 rng ∧
    (s.detect t gf em1 fc rng).dispatched = (s.detect t gf em2 fc rng).dispatched := by
  have hdpc : ∀ (s0 : SiteSurvey) (si : List ℕ) (rg : List ℚ),
      s0.detect_prob_curve t gf si em1 rg = s0.detect_prob_curve t gf si em2 rg := by
    intro s0 si rg
    unfold SiteSurvey.detect_prob_curve
    have hv : ∀ x, s0.siteVals t gf em1 x = s0.siteVals t gf em2 x := by
      intro x
      unfold SiteSurvey.siteVals
      apply List.map_congr_left
      intro vim _
      by_cases hm : gf.metContains vim.1
      · simp [hm]
      · simp [hm, sumAttr_congr em1 em2 vim.1 x hn hsite hflux hrc]
    simp only [hv]
  refine ⟨hdpc s site_inds rng, ?_⟩
  unfold SiteSurvey.detect
  by_cases hct : s.check_time t
  · by_cases hpos : 0 < (s.sites_surveyed t fc).1.length
    · simp [hct, hpos, hdpc]
    · simp [hct, hpos]
  · simp [hct]


/-! ## Witnesses: the hypothesis-bearing theorems applied at concrete inputs -/

/-- Witness for `detect_prob_curve_matches_spec`: a store whose two live
entries are both active, surveyed at sites 3 and 1 with draws 0 and 1. -/
theorem detect_prob_curve_matches_spec_witness :
    (∀ i < testEmissions.n_em, testEmissions.activeAt testTime i = true) ∧
    testSurvey.detect_prob_curve testTime testGasField [3, 1] testEmissions [0, 1]
      = (specDetected testSurvey testTime testGasField testEmissions [3, 1] [0, 1],
        List.drop ([3, 1] : List ℕ).length ([0, 1] : List ℚ)) :=
  ⟨by decide, detect_prob_curve_matches_spec testSurvey testTime testGasField
    testEmissions [3, 1] [0, 1] (by decide)⟩

/-- Witness for `sites_surveyed_front_and_cost`: queue of five sites,
capacity two per step, cost accumulator of eleven steps. -/
theorem sites_surveyed_front_and_cost_witness :
    testTime.time_index < testCost.length ∧
    ((testSurvey.sites_surveyed testTime testCost).1
        = testSurvey.site_queue.take testSurvey.sites_per_timestep.toNat ∧
      (testSurvey.sites_surveyed testTime testCost).1.length
        = min testSurvey.sites_per_timestep.toNat testSurvey.site_queue.length ∧
      (testSurvey.sites_surveyed testTime testCost).2.2.getD testTime.time_index 0
        = testCost.getD testTime.time_index 0
          + (testSurvey.sites_surveyed testTime testCost).1.length
            * testSurvey.site_cost ∧
      (∀ j, j ≠ testTime.time_index →
        (testSurvey.sites_surveyed testTime testCost).2.2.get? j = testCost.get? j) ∧
      (testSurvey.sites_surveyed testTime testCost).2.1.site_queue
        = testSurvey.site_queue.drop testSurvey.sites_per_timestep.toNat) :=
  ⟨by decide, sites_surveyed_front_and_cost testSurvey testTime testCost (by decide)⟩

/-- Witness for `detect_noop_of_check_time_false`: at midnight
(`current_time = 0`) the 8-to-18 operating window is closed. -/
theorem detect_noop_of_check_time_false_witness :
    testSurvey.check_time ⟨1, 0, 0⟩ = false ∧
    testSurvey.detect ⟨1, 0, 0⟩ testGasField testEmissions testCost []
      = ⟨testSurvey, testCost, none, testEmissions, []⟩ := by
  have h : testSurvey.check_time ⟨1, 0, 0⟩ = false := by
    norm_num [SiteSurvey.check_time, testSurvey]
  exact ⟨h, detect_noop_of_check_time_false testSurvey ⟨1, 0, 0⟩ testGasField
    testEmissions testCost [] h⟩

/-- Witness for `empty_candidates_noop`: a survey with an empty queue. -/
theorem empty_candidates_noop_witness :
    testSurveyNoQueue.site_queue = [] ∧
    (testSurveyNoQueue.detect_prob_curve testTime testGasField [] testEmissions []
        = ([], []) ∧
      testSurveyNoQueue.detect testTime testGasField testEmissions testCost []
        = ⟨testSurveyNoQueue, testCost, none, testEmissions, []⟩) :=
  ⟨rfl, empty_candidates_noop testSurveyNoQueue testTime testGasField testEmissions
    testCost [] rfl⟩

/-- Witness for `detect_reads_below_n_em`: two stores agreeing on their
two live entries and differing in the scratch entry beyond `n_em`. -/
theorem detect_reads_below_n_em_witness :
    (testEmissions.n_em = testEmissionsAlt.n_em ∧
      (∀ i < testEmissions.n_em,
        testEmissions.site_index.get? i = testEmissionsAlt.site_index.get? i) ∧
      (∀ i < testEmissions.n_em,
        testEmissions.flux.getD i 0 = testEmissionsAlt.flux.getD i 0) ∧
      (∀ i < testEmissions.n_em,
        testEmissions.repair_cost.getD i 0 = testEmissionsAlt.repair_cost.getD i 0)) ∧
    (testSurvey.detect_prob_curve testTime testGasField [3, 1] testEmissions [0, 1]
        = testSurvey.detect_prob_curve testTime testGasField [3, 1]
          testEmissionsAlt [0, 1] ∧
      (testSurvey.detect testTime testGasField testEmissions testCost [0, 1]).dispatched
        = (testSurvey.detect testTime testGasField testEmissionsAlt testCost
            [0, 1]).dispatched) :=
  ⟨⟨rfl, by decide, by decide, by decide⟩,
    detect_reads_below_n_em testSurvey testTime testGasField testCost [0, 1] [3, 1]
      testEmissions testEmissionsAlt rfl (by decide) (by decide) (by decide)⟩

/-- Witness for `begin_eq_end_never_operates`: a survey whose window is
`begin = end = 8`. -/
theorem begin_eq_end_never_operates_witness :
    testSurveyClosed.ophrs_begin = testSurveyClosed.ophrs_end ∧
    (testSurveyClosed.check_time testTime = false ∧
      testSurveyClosed.detect testTime testGasField testEmissions testCost []
        = ⟨testSurveyClosed, testCost, none, testEmissions, []⟩ ∧
      (SiteSurvey.init ⟨1/2, 0, 0⟩ 50 1 [] [] (fun _ _ _ => 1) 8 8 [] none
        [("flux", "mean")]).isSome = true) :=
  ⟨rfl, begin_eq_end_never_operates testSurveyClosed testTime testGasField
    testEmissions testCost [] rfl⟩

end FEAST
